import Mathlib

/-!
Verification development for the hypersweeper SMAC bridge
(`hydra_plugins/hyper_smac/hyper_smac.py`).

The Python module has two parts:
* `HyperSMACAdapter`, translating the uniform hypersweeper ask/tell
  protocol into SMAC's native `TrialInfo`/`TrialValue` call sequence, and
* `make_smac`, a factory that assembles a SMAC instance from a
  dynamically typed configuration mapping (`smac_args`).

The shallow embedding below models Python's dynamic values with explicit
inductives: runtime type tests (`isinstance`, `hasattr`, `in`) become
pattern matches on those inductives, dictionaries become association
lists preserving insertion order, exceptions become `Except`, and the
in-place mutation of `smac_args` is made explicit by returning the final
state of the mapping alongside the constructed adapter.  External
collaborators (pandas `read_csv`, `convert_to_configuration`) are
parameters gathered in an `Externals` record.  Scalars that the bridge merely
routes (performances, costs, budgets, seeds) are modelled as integers,
opaque objects (callbacks, configurations, factories) as numeric
identifiers; none of the claims depends on their arithmetic.
-/

/-- A configuration (a point of the search space), opaque to the bridge. -/
abbrev Config := Nat

/-- The search space object, opaque to the bridge. -/
abbrev ConfigSpace := Nat

/-- A callback object, opaque to the bridge. -/
abbrev Callback := Nat

/-- An acquisition-function object, opaque to the bridge. -/
abbrev AcqFun := Nat

/-- One row of the warm-start csv file, opaque to the bridge. -/
abbrev Row := Nat

/-- Modelled from the spec: the ProposedTrial record (`Info` in
`hydra_plugins.hypersweeper.utils`, which is outside `src/`): a
configuration, an optional numeric budget, an optional resume path
(`load_path`) and an optional integer seed, exactly the fields the
adapter constructs at `hyper_smac.py:51`. -/
structure Info where
  config : Config
  budget : Option Int
  load_path : Option String
  seed : Option Int
deriving DecidableEq, Repr

/-- Modelled from the spec: the TrialResult record handed to `tell`
(`performance`: primary objective scalar, `cost`: optional secondary
scalar), matching the two attributes read at `hyper_smac.py:62-64`. -/
structure TrialResult where
  performance : Int
  cost : Option Int
deriving DecidableEq, Repr

/-- SMAC's native trial-request shape, as constructed by the bridge:
`TrialInfo(config, seed=..., budget=...)` (`hyper_smac.py:59`). -/
structure TrialInfo where
  config : Config
  seed : Option Int
  budget : Option Int
deriving DecidableEq, Repr

/-- SMAC's native trial-result shape, as constructed by the bridge:
`TrialValue(time=..., cost=..., additional_info=...)`
(`hyper_smac.py:64`); `additional_info` is a string-keyed dictionary,
modelled as an association list. -/
structure TrialValue where
  time : Option Int
  cost : Int
  additional_info : List (String × Int)
deriving DecidableEq, Repr

/-- Dictionary lookup on an association list (first matching key), the
model of Python's `d[k]` / `k in d` on insertion-ordered dicts. -/
def lookupStr {α : Type} (kvs : List (String × α)) (k : String) : Option α :=
  match kvs with
  | [] => none
  | (k₀, v) :: rest => if k₀ = k then some v else lookupStr rest k

/-- In-place value replacement on an association list (first matching
key, position preserved), the model of Python's `d[k] = v` on a dict
that already holds `k`. -/
def updateStr {α : Type} (kvs : List (String × α)) (k : String) (v : α) :
    List (String × α) :=
  match kvs with
  | [] => []
  | (k₀, v₀) :: rest =>
      if k₀ = k then (k₀, v) :: rest else (k₀, v₀) :: updateStr rest k v

namespace HyperSMACAdapter

/-- `HyperSMACAdapter.ask` (`hyper_smac.py:48-55`): the engine's native
answer `smac_info = self.smac.ask()` is passed in as the argument; the
result is the triple the adapter returns to the driver. -/
def ask (smac_info : TrialInfo) : Info × Bool × Bool :=
  let info : Info :=
    { config := smac_info.config, budget := smac_info.budget,
      load_path := none, seed := smac_info.seed }
  let terminate := false
  let optimizer_termination := false
  (info, terminate, optimizer_termination)

/-- `HyperSMACAdapter.tell` (`hyper_smac.py:57-65`): returns the pair
`(smac_info, smac_value)` that the adapter forwards to the engine's
native `self.smac.tell`. -/
def tell (info : Info) (value : TrialResult) : TrialInfo × TrialValue :=
  let smac_info : TrialInfo :=
    { config := info.config, seed := info.seed, budget := info.budget }
  let additional_info : List (String × Int) :=
    match value.cost with
    | some c => [("resource_cost", c)]
    | none => []
  let smac_value : TrialValue :=
    { time := value.cost, cost := value.performance,
      additional_info := additional_info }
  (smac_info, smac_value)

end HyperSMACAdapter

/-- Claim C1: for every trial `info` and every result with
`performance = x` and `cost = y`, the native trial-result constructed by
`tell` has its `time` field equal to `y`, its `cost` field equal to `x`
(the performance/cost swap), and its `additional_info` side-channel maps
the key `resource_cost` to `y` exactly when `y` is present: when `y` is
absent the lookup finds no `resource_cost` key. -/
theorem tell_swaps_performance_and_cost (info : Info) (x : Int) (y : Option Int) :
    (HyperSMACAdapter.tell info ⟨x, y⟩).2.time = y ∧
    (HyperSMACAdapter.tell info ⟨x, y⟩).2.cost = x ∧
    lookupStr (HyperSMACAdapter.tell info ⟨x, y⟩).2.additional_info "resource_cost" = y := by
  cases y <;> simp [HyperSMACAdapter.tell, lookupStr]

/-- Claim C7: `ask` always reports `terminate = false` and
`optimizer_requested_stop = false`, and the returned trial has
`load_path` (resume path) absent while configuration, budget and seed
are copied from the engine's native answer. -/
theorem ask_reports_no_termination (smac_info : TrialInfo) :
    HyperSMACAdapter.ask smac_info =
      ({ config := smac_info.config, budget := smac_info.budget,
         load_path := none, seed := smac_info.seed }, false, false) := rfl

/-- Claim C8: `tell` rebuilds the engine's native trial-request from
exactly the configuration, seed and budget carried by `info`, unmodified:
the values returned by the preceding `ask` are echoed back unchanged. -/
theorem tell_echoes_trial_info (info : Info) (value : TrialResult) :
    (HyperSMACAdapter.tell info value).1 =
      { config := info.config, seed := info.seed, budget := info.budget } := rfl

/-!
The factory side.  `make_smac` receives `smac_args`, an insertion-ordered
mapping whose keys the code addresses literally; it is modelled as a
record of optional entries (a `none` field is an absent key).  Values
whose runtime type the code inspects get dedicated inductives.
-/

/-- An exception escaping `make_smac`: a missing dictionary key or a bad
argument type (`Path` applied to a non-path-like value). -/
inductive Err where
  | keyError : String → Err
  | typeError : String → Err
deriving DecidableEq, Repr

/-- A value inside the `scenario` sub-mapping: a string, a `pathlib.Path`,
a boolean or an integer.  Only the distinction string/path matters to the
bridge (the output-directory normalization). -/
inductive SVal where
  | s : String → SVal
  | p : String → SVal
  | b : Bool → SVal
  | i : Int → SVal
deriving DecidableEq, Repr

/-- `Path(v)`: a string or a `Path` yields a `Path`; any other value
raises `TypeError`. -/
def pathOfSVal : SVal → Except Err SVal
  | .s x => .ok (.p x)
  | .p x => .ok (.p x)
  | _ => .error (.typeError "argument should be a str or an os.PathLike object")

/-- The value stored under the `callbacks` key: a dictionary of
callbacks, a list (or `ListConfig`) of callbacks, or a value of any
other runtime type (`cother`, identified by an opaque tag). -/
inductive CallbacksVal where
  | cdict : List (String × Callback) → CallbacksVal
  | clist : List Callback → CallbacksVal
  | cother : Nat → CallbacksVal
deriving DecidableEq, Repr

/-- A `selector` attribute value: may or may not expose an
`expl2callback` attribute (`hasattr` probes at `hyper_smac.py:94-96`). -/
structure SelectorAttr where
  expl2callback : Option Callback
deriving DecidableEq, Repr

/-- The value stored under the `acquisition_maximizer` key: a callable
factory.  `id` identifies the factory; `selector` is the (optional)
`selector` attribute of the factory object itself, which is what the
code probes at `hyper_smac.py:94`; `instSelector` is the `selector`
attribute that the object RETURNED by calling the factory exposes — in
Python an instantiated object's attributes need not coincide with its
factory's, so the two are independent fields. -/
structure MaximizerFactory where
  id : Nat
  selector : Option SelectorAttr
  instSelector : Option SelectorAttr
deriving DecidableEq, Repr

/-- The maximizer object produced by calling the factory with
`(configspace=..., acquisition_function=...)` (`hyper_smac.py:90-93`),
recording its construction arguments and its own `selector` attribute. -/
structure MaximizerObj where
  factoryId : Nat
  configspace : ConfigSpace
  acquisition_function : AcqFun
  selector : Option SelectorAttr
deriving DecidableEq, Repr

/-- The value stored under the `initial_design` key: a callable (with
opaque identity `callId`, called as `(scenario=...)` in the non-warm-start
branch), which may expose a `keywords` attribute (a Hydra partial's bound
keyword arguments) and may support `__getitem__` (a raw mapping, `items`).
Values stored under `warmstart_file` are `None` or strings, modelled as
`Option String`. -/
structure InitialDesignEntry where
  callId : Nat
  keywords : Option (List (String × Option String))
  items : Option (List (String × Option String))
deriving DecidableEq, Repr

/-- The scenario object `Scenario(configspace, **scenario_args)`
(`hyper_smac.py:79`), recording its construction arguments. -/
structure Scenario where
  configspace : ConfigSpace
  args : List (String × SVal)
deriving DecidableEq, Repr

/-- The initial-design object put into `smac_kwargs`: either requested
from `HyperparameterOptimizationFacade.get_initial_design(scenario=...,
n_configs=..., additional_configs=...)` (warm-start branch,
`hyper_smac.py:118-122`) or produced by calling the configured factory
with `(scenario=...)` (`hyper_smac.py:124`). -/
inductive InitialDesign where
  | fromFacade (scenario : Scenario) (n_configs : Nat)
      (additional_configs : List Config) : InitialDesign
  | fromFactory (factoryId : Nat) (scenario : Scenario) : InitialDesign
deriving DecidableEq, Repr

/-- The `smac_args` mapping handed to `make_smac`.  Each field models
presence/absence of the like-named key; factories the code only calls
once with fixed arguments are opaque identifiers whose construction
results record those arguments. -/
structure SmacArgs where
  scenario : Option (List (String × SVal))
  callbacks : Option CallbacksVal
  acquisition_function : Option AcqFun
  acquisition_maximizer : Option MaximizerFactory
  config_selector : Option Nat
  initial_design : Option InitialDesignEntry
  intensifier : Option Nat
  random_design : Option Nat
  smac_facade : Option Nat
deriving DecidableEq, Repr

/-- The `smac_kwargs` dictionary assembled by `make_smac` and splatted
into the facade call; a `none` field is an absent key. -/
structure SmacKwargs where
  callbacks : Option (List Callback)
  acquisition_maximizer : Option MaximizerObj
  config_selector : Option (Nat × Scenario)
  initial_design : Option InitialDesign
  intensifier : Option (Nat × Scenario)
  random_design : Option Nat
deriving DecidableEq, Repr

/-- The engine instance `smac_args["smac_facade"](scenario, dummy_func,
**smac_kwargs)` (`hyper_smac.py:133`), recording the facade used and its
construction arguments. -/
structure Smac where
  facadeId : Nat
  scenario : Scenario
  kwargs : SmacKwargs
deriving DecidableEq, Repr

/-- The adapter object returned by `make_smac`, wrapping the engine. -/
structure AdapterObj where
  smac : Smac
deriving DecidableEq, Repr

/-- External collaborators of the factory: pandas `read_csv` (rows of a
tabular file, in file order) and `convert_to_configuration` from
`hydra_plugins.hypersweeper.utils` (outside `src/`; the spec treats it
as the external row-to-configuration conversion routine). -/
structure Externals where
  readCsv : String → List Row
  convert_to_configuration : Row → ConfigSpace → Config

/-- `read_additional_configs` (`hyper_smac.py:17-34`): read the csv file
and convert every row, in file order, to a configuration. -/
def read_additional_configs (ext : Externals) (initial_design_fn : String)
    (configspace : ConfigSpace) : List Config :=
  (ext.readCsv initial_design_fn).map
    (fun row => ext.convert_to_configuration row configspace)

/-- The no-op objective handed to the facade (`hyper_smac.py:74-75`):
always reports 0 regardless of its arguments. -/
def dummy_func (_arg : Config) (_seed : Option Int) (_budget : Option Int) : Int := 0

/-- Lines 77-78: if the scenario sub-mapping holds an `output_directory`
key, replace its value in place by `Path(value)`. -/
def normalizeOutputDir (scen : List (String × SVal)) :
    Except Err (List (String × SVal)) :=
  match lookupStr scen "output_directory" with
  | some v =>
      match pathOfSVal v with
      | .ok pv => .ok (updateStr scen "output_directory" pv)
      | .error e => .error e
  | none => .ok scen

/-- Lines 110-111 fallback: `hasattr(obj, "__getitem__") and
"warmstart_file" in obj`, then `obj["warmstart_file"]`. -/
def wsFromItems (e : InitialDesignEntry) : Option (Option String) :=
  match e.items with
  | some its => lookupStr its "warmstart_file"
  | none => none

/-- Lines 104-111: the `warmstart_file` variable after the probe chain —
`some v` when one of the two probes found the key (with `v` its stored
value, possibly `None`), `none` when neither did. -/
def warmstartFileOf (e : InitialDesignEntry) : Option (Option String) :=
  match e.keywords with
  | some kw =>
      match lookupStr kw "warmstart_file" with
      | some v => some v
      | none => wsFromItems e
  | none => wsFromItems e

/-- Python truthiness of the `warmstart_file` variable's value domain:
`None` and the empty string are falsy, non-empty strings truthy. -/
def truthyWs : Option String → Bool
  | none => false
  | some f => !f.isEmpty

/-- Lines 82-87: the resolved callback sequence for `smac_kwargs` —
`some` the list when a branch of the `if/elif` chain fires (absent key →
fresh empty list, mapping → fresh list of its values in insertion order,
list/`ListConfig` → the very list object of the tree, an alias), `none`
when the shape matches no branch and the key is silently skipped. -/
def resolveCallbacks : Option CallbacksVal → Option (List Callback)
  | none => some []
  | some (.cdict kvs) => some (kvs.map Prod.snd)
  | some (.clist l) => some l
  | some (.cother _) => none

/-- Lines 89-97: the acquisition step.  Instantiates the maximizer and,
when the factory exposes `selector.expl2callback`, appends that hook to
`smac_kwargs["callbacks"]` (raising `KeyError` when the entry was
skipped).  The `append` at line 97 mutates the list object in place:
when the tree's `callbacks` value was a list/`ListConfig`, line 87
aliased that very object into `smac_kwargs`, so the caller's tree is
mutated too — the result therefore carries the updated state of the
mapping alongside the maximizer and the callback list. -/
def acqStepOf (configspace : ConfigSpace) (args₁ : SmacArgs)
    (callbacks₀ : Option (List Callback)) :
    Except Err (SmacArgs × Option MaximizerObj × Option (List Callback)) :=
  match args₁.acquisition_function, args₁.acquisition_maximizer with
  | some af, some mf =>
      let m : MaximizerObj :=
        { factoryId := mf.id, configspace := configspace,
          acquisition_function := af, selector := mf.instSelector }
      match mf.selector with
      | some sel =>
          match sel.expl2callback with
          | some cb =>
              match callbacks₀ with
              | some cbs =>
                  let args₂ : SmacArgs :=
                    match args₁.callbacks with
                    | some (.clist l) =>
                        { args₁ with callbacks := some (.clist (l ++ [cb])) }
                    | _ => args₁
                  .ok (args₂, some m, some (cbs ++ [cb]))
              | none => .error (.keyError "callbacks")
          | none => .ok (args₁, some m, callbacks₀)
      | none => .ok (args₁, some m, callbacks₀)
  | _, _ => .ok (args₁, none, callbacks₀)

/-- Lines 80-131 of `make_smac`: assemble the `smac_kwargs` dictionary
from the (already popped) mapping `args₁` and the constructed scenario —
callback resolution (82-87, `resolveCallbacks`), the acquisition pair
with the factory capability probe and the in-place append (89-97,
`acqStepOf`), config selector (99-100), initial design with the
warm-start probes (102-125), intensifier (127-128) and random design
(130-131).  Returns the state of the mapping after the acquisition
step's possible in-place list mutation, together with the kwargs. -/
def smacKwargsOf (ext : Externals) (configspace : ConfigSpace)
    (args₁ : SmacArgs) (scenario : Scenario) :
    Except Err (SmacArgs × SmacKwargs) :=
  match acqStepOf configspace args₁ (resolveCallbacks args₁.callbacks) with
  | .error e => .error e
  | .ok (args₂, maxObj, callbacks₁) =>
    let config_selector : Option (Nat × Scenario) :=
      args₂.config_selector.map (fun cid => (cid, scenario))
    let initial_design : Option InitialDesign :=
      match args₂.initial_design with
      | none => none
      | some e =>
          match warmstartFileOf e with
          | some (some f) =>
              if f.isEmpty then some (.fromFactory e.callId scenario)
              else some (.fromFacade scenario 0
                (read_additional_configs ext f configspace))
          | some none => some (.fromFactory e.callId scenario)
          | none => some (.fromFactory e.callId scenario)
    let intensifier : Option (Nat × Scenario) :=
      args₂.intensifier.map (fun iid => (iid, scenario))
    let random_design : Option Nat := args₂.random_design
    .ok (args₂,
         { callbacks := callbacks₁, acquisition_maximizer := maxObj,
           config_selector := config_selector,
           initial_design := initial_design,
           intensifier := intensifier, random_design := random_design })

/-- `make_smac` (`hyper_smac.py:71-134`).  Returns the final state of the
`smac_args` mapping (made explicit because the code mutates it in place:
the output-directory rewrite, `pop("scenario")`, and the acquisition
step's in-place append to a list-valued `callbacks` entry) together with
the constructed adapter, or the exception that escaped.  The sub-policy
keyword assembly of lines 80-131 is factored into `smacKwargsOf`; note
that it runs, and can raise, before line 133 reads the `smac_facade`
key, exactly as in the source. -/
def make_smac (ext : Externals) (configspace : ConfigSpace) (smac_args : SmacArgs) :
    Except Err (SmacArgs × AdapterObj) :=
  match smac_args.scenario with
  | none => .error (.keyError "scenario")
  | some scen₀ =>
    match normalizeOutputDir scen₀ with
    | .error e => .error e
    | .ok scen =>
      let args₁ : SmacArgs := { smac_args with scenario := none }
      let scenario : Scenario := { configspace := configspace, args := scen }
      match smacKwargsOf ext configspace args₁ scenario with
      | .error e => .error e
      | .ok (args₂, kwargs) =>
        match args₂.smac_facade with
        | none => .error (.keyError "smac_facade")
        | some fid =>
            .ok (args₂, { smac := { facadeId := fid, scenario := scenario, kwargs := kwargs } })

/-! Concrete fixtures used by counterexamples and witnesses. -/

/-- External collaborators returning nothing: an empty csv and a constant
row conversion.  No claim settled on a configuration without a warm-start
file ever consults them. -/
def extDefault : Externals :=
  { readCsv := fun _ => [], convert_to_configuration := fun _ _ => 0 }

/-- A configuration mapping holding only the mandatory `scenario` key. -/
def argsScenarioOnly : SmacArgs :=
  { scenario := some [("deterministic", SVal.b true)], callbacks := none,
    acquisition_function := none, acquisition_maximizer := none,
    config_selector := none, initial_design := none, intensifier := none,
    random_design := none, smac_facade := none }

/-- Claim C2, counterexample: on a configuration mapping holding only the
`scenario` key, `make_smac` does not succeed — line 133 reads
`smac_args["smac_facade"]` unconditionally, so the missing key raises
`KeyError` and no adapter is returned, contrary to the claim that
`build` succeeds on scenario-only trees. -/
theorem make_smac_scenario_only_raises :
    make_smac extDefault 0 argsScenarioOnly = .error (.keyError "smac_facade") := by
  rfl

/-- Claim C2, amended: a tree holding the `scenario` key AND a
`smac_facade` entry (and nothing else) builds successfully, returning an
adapter wrapping a default-configured engine: the only keyword forwarded
to the facade is the empty callback list, every other sub-policy is left
to the engine's defaults. -/
theorem make_smac_scenario_and_facade_builds (ext : Externals) (cs : ConfigSpace)
    (scen scen' : List (String × SVal)) (fid : Nat)
    (hn : normalizeOutputDir scen = .ok scen') :
    make_smac ext cs
      { scenario := some scen, callbacks := none, acquisition_function := none,
        acquisition_maximizer := none, config_selector := none,
        initial_design := none, intensifier := none, random_design := none,
        smac_facade := some fid } =
      .ok ({ scenario := none, callbacks := none, acquisition_function := none,
             acquisition_maximizer := none, config_selector := none,
             initial_design := none, intensifier := none, random_design := none,
             smac_facade := some fid },
           { smac := { facadeId := fid,
                       scenario := { configspace := cs, args := scen' },
                       kwargs := { callbacks := some [],
                                   acquisition_maximizer := none,
                                   config_selector := none,
                                   initial_design := none,
                                   intensifier := none,
                                   random_design := none } } }) := by
  simp [make_smac, smacKwargsOf, resolveCallbacks, acqStepOf, hn]

/-- Claim C2, witness for the amended theorem at a concrete input. -/
theorem make_smac_scenario_and_facade_builds_witness :
    normalizeOutputDir [("deterministic", SVal.b true)] =
      .ok [("deterministic", SVal.b true)] ∧
    make_smac extDefault 0
      { scenario := some [("deterministic", SVal.b true)], callbacks := none,
        acquisition_function := none, acquisition_maximizer := none,
        config_selector := none, initial_design := none, intensifier := none,
        random_design := none, smac_facade := some 5 } =
      .ok ({ scenario := none, callbacks := none, acquisition_function := none,
             acquisition_maximizer := none, config_selector := none,
             initial_design := none, intensifier := none, random_design := none,
             smac_facade := some 5 },
           { smac := { facadeId := 5,
                       scenario := { configspace := 0,
                                     args := [("deterministic", SVal.b true)] },
                       kwargs := { callbacks := some [],
                                   acquisition_maximizer := none,
                                   config_selector := none,
                                   initial_design := none,
                                   intensifier := none,
                                   random_design := none } } }) :=
  ⟨rfl, make_smac_scenario_and_facade_builds extDefault 0
    [("deterministic", SVal.b true)] [("deterministic", SVal.b true)] 5 rfl⟩

/-- A configuration mapping whose `callbacks` value is neither a mapping
nor a sequence (an opaque value of another runtime type). -/
def argsBadCallbacks : SmacArgs :=
  { argsScenarioOnly with callbacks := some (.cother 3), smac_facade := some 7 }

/-- Claim C3, counterexample: with `callbacks` bound to a value that is
neither a mapping nor a sequence, `make_smac` does NOT fail — the
`if/elif/elif` chain at lines 82-87 has no `else`, so the key is
silently skipped (`smac_kwargs` gets no `callbacks` entry) and a
constructed adapter is returned, contrary to the claimed configuration
error. -/
theorem make_smac_bad_callbacks_returns_adapter :
    (make_smac extDefault 0 argsBadCallbacks).map
      (fun r => r.2.smac.kwargs.callbacks) = .ok none := by
  rfl

/-- Claim C3, amended: a malformed `callbacks` value is silently
skipped: whenever the scenario is present and normalizable, a facade
entry exists and the acquisition pair is not taken (which would need the
skipped entry), `make_smac` succeeds and forwards no `callbacks` keyword
to the facade at all. -/
theorem make_smac_bad_callbacks_silently_skipped (ext : Externals)
    (cs : ConfigSpace) (args : SmacArgs) (scen scen' : List (String × SVal))
    (k fid : Nat)
    (hscen : args.scenario = some scen)
    (hn : normalizeOutputDir scen = .ok scen')
    (hcb : args.callbacks = some (.cother k))
    (hacq : args.acquisition_function = none)
    (hfac : args.smac_facade = some fid) :
    (make_smac ext cs args).map (fun r => r.2.smac.kwargs.callbacks) = .ok none := by
  simp [make_smac, smacKwargsOf, resolveCallbacks, acqStepOf, hscen, hn, hcb, hacq, hfac, Except.map]

/-- Claim C3, witness for the amended theorem at a concrete input. -/
theorem make_smac_bad_callbacks_silently_skipped_witness :
    argsBadCallbacks.scenario = some [("deterministic", SVal.b true)] ∧
    normalizeOutputDir [("deterministic", SVal.b true)] =
      .ok [("deterministic", SVal.b true)] ∧
    argsBadCallbacks.callbacks = some (.cother 3) ∧
    argsBadCallbacks.acquisition_function = none ∧
    argsBadCallbacks.smac_facade = some 7 ∧
    (make_smac extDefault 0 argsBadCallbacks).map
      (fun r => r.2.smac.kwargs.callbacks) = .ok none :=
  ⟨rfl, rfl, rfl, rfl, rfl,
   make_smac_bad_callbacks_silently_skipped extDefault 0 argsBadCallbacks
     [("deterministic", SVal.b true)] [("deterministic", SVal.b true)] 3 7
     rfl rfl rfl rfl rfl⟩

/-- A maximizer factory that itself has no `selector` attribute, while
the maximizer object it produces exposes `selector.expl2callback`. -/
def mfInstanceOnly : MaximizerFactory :=
  { id := 11, selector := none,
    instSelector := some { expl2callback := some 7 } }

/-- A configuration mapping carrying the co-occurring acquisition pair
built around `mfInstanceOnly`. -/
def argsAcqProbe : SmacArgs :=
  { argsScenarioOnly with
    acquisition_function := some 4,
    acquisition_maximizer := some mfInstanceOnly, smac_facade := some 9 }

/-- Claim C4, counterexample: the capability probe at lines 94-96 is on
`smac_args["acquisition_maximizer"]` — the configured factory object —
not on the instantiated maximizer.  Here the instantiated maximizer
exposes `selector.expl2callback = 7`, yet the resolved callback sequence
stays empty, contrary to the claim that the resulting maximizer's hook
is appended. -/
theorem make_smac_probe_is_on_factory :
    (make_smac extDefault 0 argsAcqProbe).map
      (fun r => (r.2.smac.kwargs.acquisition_maximizer,
                 r.2.smac.kwargs.callbacks)) =
    .ok (some { factoryId := 11, configspace := 0, acquisition_function := 4,
                selector := some { expl2callback := some 7 } },
         some []) := by
  rfl

/-- Claim C4, amended: when both acquisition keys are present the
maximizer is instantiated with `(configspace = search_space,
acquisition_function = <the acquisition_function value>)`, and the hook
appended to the callback sequence is the one exposed by the FACTORY
object's `selector.expl2callback` (absence of either nested attribute on
the factory is not an error and appends nothing); the instantiated
maximizer's own attributes are not probed. -/
theorem make_smac_acquisition_appends_factory_hook (ext : Externals)
    (cs : ConfigSpace) (args : SmacArgs) (scen scen' : List (String × SVal))
    (af : AcqFun) (mf : MaximizerFactory) (fid : Nat)
    (hscen : args.scenario = some scen)
    (hn : normalizeOutputDir scen = .ok scen')
    (hcb : args.callbacks = none)
    (haf : args.acquisition_function = some af)
    (ham : args.acquisition_maximizer = some mf)
    (hfac : args.smac_facade = some fid) :
    (make_smac ext cs args).map
      (fun r => (r.2.smac.kwargs.acquisition_maximizer,
                 r.2.smac.kwargs.callbacks)) =
    .ok (some { factoryId := mf.id, configspace := cs,
                acquisition_function := af, selector := mf.instSelector },
         some (match mf.selector with
               | some sel =>
                   match sel.expl2callback with
                   | some cb => [cb]
                   | none => []
               | none => [])) := by
  cases hms : mf.selector with
  | none => simp [make_smac, smacKwargsOf, resolveCallbacks, acqStepOf, hscen, hn, hcb, haf, ham, hfac, hms, Except.map]
  | some sel =>
      cases hcb2 : sel.expl2callback with
      | none => simp [make_smac, smacKwargsOf, resolveCallbacks, acqStepOf, hscen, hn, hcb, haf, ham, hfac, hms, hcb2, Except.map]
      | some cb => simp [make_smac, smacKwargsOf, resolveCallbacks, acqStepOf, hscen, hn, hcb, haf, ham, hfac, hms, hcb2, Except.map]

/-- A maximizer factory exposing `selector.expl2callback` itself. -/
def mfFactoryHook : MaximizerFactory :=
  { id := 12, selector := some { expl2callback := some 21 },
    instSelector := none }

/-- A configuration mapping with the acquisition pair built around
`mfFactoryHook`. -/
def argsAcqHook : SmacArgs :=
  { argsScenarioOnly with
    acquisition_function := some 4,
    acquisition_maximizer := some mfFactoryHook, smac_facade := some 9 }

/-- Claim C4, witness for the amended theorem at a concrete input: the
factory's hook 21 is appended to the (empty) resolved callback list. -/
theorem make_smac_acquisition_appends_factory_hook_witness :
    argsAcqHook.scenario = some [("deterministic", SVal.b true)] ∧
    normalizeOutputDir [("deterministic", SVal.b true)] =
      .ok [("deterministic", SVal.b true)] ∧
    argsAcqHook.callbacks = none ∧
    argsAcqHook.acquisition_function = some 4 ∧
    argsAcqHook.acquisition_maximizer = some mfFactoryHook ∧
    argsAcqHook.smac_facade = some 9 ∧
    (make_smac extDefault 0 argsAcqHook).map
      (fun r => (r.2.smac.kwargs.acquisition_maximizer,
                 r.2.smac.kwargs.callbacks)) =
    .ok (some { factoryId := mfFactoryHook.id, configspace := 0,
                acquisition_function := 4,
                selector := mfFactoryHook.instSelector },
         some (match mfFactoryHook.selector with
               | some sel =>
                   match sel.expl2callback with
                   | some cb => [cb]
                   | none => []
               | none => [])) :=
  ⟨rfl, rfl, rfl, rfl, rfl, rfl,
   make_smac_acquisition_appends_factory_hook extDefault 0 argsAcqHook
     [("deterministic", SVal.b true)] [("deterministic", SVal.b true)] 4
     mfFactoryHook 9 rfl rfl rfl rfl rfl rfl⟩

/-- Claim C5: callback resolution — an absent `callbacks` key resolves
to the empty sequence; a mapping resolves to its values in insertion
order with keys discarded; an ordered sequence is used verbatim.  Stated
on a tree whose acquisition pair is not taken (the resolution step at
lines 82-87 is then what the facade receives). -/
theorem make_smac_callbacks_resolution (ext : Externals) (cs : ConfigSpace)
    (args : SmacArgs) (scen scen' : List (String × SVal)) (fid : Nat)
    (hscen : args.scenario = some scen)
    (hn : normalizeOutputDir scen = .ok scen')
    (hacq : args.acquisition_function = none)
    (hfac : args.smac_facade = some fid) :
    (args.callbacks = none →
      (make_smac ext cs args).map (fun r => r.2.smac.kwargs.callbacks) =
        .ok (some [])) ∧
    (∀ kvs : List (String × Callback), args.callbacks = some (.cdict kvs) →
      (make_smac ext cs args).map (fun r => r.2.smac.kwargs.callbacks) =
        .ok (some (kvs.map Prod.snd))) ∧
    (∀ l : List Callback, args.callbacks = some (.clist l) →
      (make_smac ext cs args).map (fun r => r.2.smac.kwargs.callbacks) =
        .ok (some l)) := by
  refine ⟨fun hcb => ?_, fun kvs hcb => ?_, fun l hcb => ?_⟩ <;>
    simp [make_smac, smacKwargsOf, resolveCallbacks, acqStepOf, hscen, hn, hacq, hfac, hcb, Except.map]

/-- A configuration mapping whose `callbacks` value is the two-entry
mapping of the spec's example. -/
def argsCbDict : SmacArgs :=
  { argsScenarioOnly with
    callbacks := some (.cdict [("a", 31), ("b", 32)]), smac_facade := some 7 }

/-- Claim C5, witness at a concrete input: the mapping
`{a : 31, b : 32}` resolves to the sequence `[31, 32]`. -/
theorem make_smac_callbacks_resolution_witness :
    argsCbDict.scenario = some [("deterministic", SVal.b true)] ∧
    normalizeOutputDir [("deterministic", SVal.b true)] =
      .ok [("deterministic", SVal.b true)] ∧
    argsCbDict.acquisition_function = none ∧
    argsCbDict.smac_facade = some 7 ∧
    argsCbDict.callbacks = some (.cdict [("a", 31), ("b", 32)]) ∧
    (make_smac extDefault 0 argsCbDict).map
      (fun r => r.2.smac.kwargs.callbacks) =
      .ok (some ([("a", 31), ("b", 32)].map Prod.snd)) :=
  ⟨rfl, rfl, rfl, rfl, rfl,
   (make_smac_callbacks_resolution extDefault 0 argsCbDict
      [("deterministic", SVal.b true)] [("deterministic", SVal.b true)] 7
      rfl rfl rfl rfl).2.1 [("a", 31), ("b", 32)] rfl⟩

/-- Claim C6: when the initial-design entry yields a (truthy) warm-start
file path — through either of the two probes modelled by
`warmstartFileOf` — the initial design is requested from the facade with
`n_configs = 0` and exactly the row-converted configurations of the
file, in file row order, as additional pre-existing configurations. -/
theorem make_smac_warmstart_initial_design (ext : Externals)
    (cs : ConfigSpace) (args : SmacArgs) (scen scen' : List (String × SVal))
    (e : InitialDesignEntry) (f : String) (fid : Nat)
    (hscen : args.scenario = some scen)
    (hn : normalizeOutputDir scen = .ok scen')
    (hid : args.initial_design = some e)
    (hws : warmstartFileOf e = some (some f))
    (hne : f.isEmpty = false)
    (hacq : args.acquisition_function = none)
    (hfac : args.smac_facade = some fid) :
    (make_smac ext cs args).map (fun r => r.2.smac.kwargs.initial_design) =
      .ok (some (.fromFacade { configspace := cs, args := scen' } 0
        (read_additional_configs ext f cs))) ∧
    read_additional_configs ext f cs =
      (ext.readCsv f).map (fun row => ext.convert_to_configuration row cs) ∧
    (read_additional_configs ext f cs).length = (ext.readCsv f).length := by
  refine ⟨?_, rfl, by simp [read_additional_configs]⟩
  simp [make_smac, smacKwargsOf, resolveCallbacks, acqStepOf, hscen, hn, hid, hws, hne, hacq, hfac, Except.map]

/-- External collaborators for the warm-start fixtures: a csv of three
rows and a row conversion returning a distinct marker per row. -/
def extWarm : Externals :=
  { readCsv := fun _ => [1, 2, 3],
    convert_to_configuration := fun row cs => 100 * row + cs }

/-- An initial-design entry: a partial whose bound keyword arguments
carry a warm-start file path. -/
def idWarm : InitialDesignEntry :=
  { callId := 2, keywords := some [("warmstart_file", some "runs/log.csv")],
    items := none }

/-- A configuration mapping requesting the warm-started initial design. -/
def argsWarm : SmacArgs :=
  { argsScenarioOnly with initial_design := some idWarm, smac_facade := some 7 }

/-- Claim C6, witness at a concrete input: three csv rows become the
three marker configurations `[100, 200, 300]`, in file row order, at
`n_configs = 0`. -/
theorem make_smac_warmstart_initial_design_witness :
    argsWarm.scenario = some [("deterministic", SVal.b true)] ∧
    normalizeOutputDir [("deterministic", SVal.b true)] =
      .ok [("deterministic", SVal.b true)] ∧
    argsWarm.initial_design = some idWarm ∧
    warmstartFileOf idWarm = some (some "runs/log.csv") ∧
    "runs/log.csv".isEmpty = false ∧
    argsWarm.acquisition_function = none ∧
    argsWarm.smac_facade = some 7 ∧
    (make_smac extWarm 0 argsWarm).map
      (fun r => r.2.smac.kwargs.initial_design) =
      .ok (some (.fromFacade
        { configspace := 0, args := [("deterministic", SVal.b true)] } 0
        (read_additional_configs extWarm "runs/log.csv" 0))) ∧
    read_additional_configs extWarm "runs/log.csv" 0 = [100, 200, 300] :=
  ⟨rfl, rfl, rfl, rfl, rfl, rfl, rfl,
   (make_smac_warmstart_initial_design extWarm 0 argsWarm
      [("deterministic", SVal.b true)] [("deterministic", SVal.b true)]
      idWarm "runs/log.csv" 7 rfl rfl rfl rfl rfl rfl rfl).1,
   rfl⟩

/-- Claim C10: when the probes find a `warmstart_file` key whose value
is falsy (`None` or the empty string), the warm start is treated as
absent: the initial-design factory is called normally with the
constructed scenario, and the csv reader is never consulted — the whole
construction is independent of it. -/
theorem make_smac_falsy_warmstart_skips_file (ext : Externals)
    (cs : ConfigSpace) (args : SmacArgs) (scen scen' : List (String × SVal))
    (e : InitialDesignEntry) (v : Option String) (fid : Nat)
    (hscen : args.scenario = some scen)
    (hn : normalizeOutputDir scen = .ok scen')
    (hid : args.initial_design = some e)
    (hws : warmstartFileOf e = some v)
    (hfalsy : truthyWs v = false)
    (hacq : args.acquisition_function = none)
    (hfac : args.smac_facade = some fid) :
    (make_smac ext cs args).map (fun r => r.2.smac.kwargs.initial_design) =
      .ok (some (.fromFactory e.callId { configspace := cs, args := scen' })) ∧
    (∀ ext₂ : Externals, make_smac ext₂ cs args = make_smac ext cs args) := by
  cases v with
  | none =>
      constructor
      · simp [make_smac, smacKwargsOf, resolveCallbacks, acqStepOf, hscen, hn, hid, hws, hacq, hfac, Except.map]
      · intro ext₂
        simp [make_smac, smacKwargsOf, resolveCallbacks, acqStepOf, hscen, hn, hid, hws, hacq, hfac]
  | some f =>
      have hf : f.isEmpty = true := by
        simpa [truthyWs] using hfalsy
      constructor
      · simp [make_smac, smacKwargsOf, resolveCallbacks, acqStepOf, hscen, hn, hid, hws, hf, hacq, hfac, Except.map]
      · intro ext₂
        simp [make_smac, smacKwargsOf, resolveCallbacks, acqStepOf, hscen, hn, hid, hws, hf, hacq, hfac]

/-- An initial-design entry: a raw mapping whose `warmstart_file` value
is the empty string. -/
def idEmptyWs : InitialDesignEntry :=
  { callId := 3, keywords := none,
    items := some [("warmstart_file", some "")] }

/-- A configuration mapping with the empty-string warm-start entry. -/
def argsEmptyWs : SmacArgs :=
  { argsScenarioOnly with initial_design := some idEmptyWs, smac_facade := some 7 }

/-- Claim C10, witness at a concrete input: an empty-string
`warmstart_file` falls back to calling the factory with the scenario. -/
theorem make_smac_falsy_warmstart_skips_file_witness :
    argsEmptyWs.scenario = some [("deterministic", SVal.b true)] ∧
    normalizeOutputDir [("deterministic", SVal.b true)] =
      .ok [("deterministic", SVal.b true)] ∧
    argsEmptyWs.initial_design = some idEmptyWs ∧
    warmstartFileOf idEmptyWs = some (some "") ∧
    truthyWs (some "") = false ∧
    argsEmptyWs.acquisition_function = none ∧
    argsEmptyWs.smac_facade = some 7 ∧
    (make_smac extWarm 0 argsEmptyWs).map
      (fun r => r.2.smac.kwargs.initial_design) =
      .ok (some (.fromFactory 3
        { configspace := 0, args := [("deterministic", SVal.b true)] })) :=
  ⟨rfl, rfl, rfl, rfl, rfl, rfl, rfl,
   (make_smac_falsy_warmstart_skips_file extWarm 0 argsEmptyWs
      [("deterministic", SVal.b true)] [("deterministic", SVal.b true)]
      idEmptyWs (some "") 7 rfl rfl rfl rfl rfl rfl rfl).1⟩

/-- A configuration mapping with a string `output_directory` inside the
scenario sub-tree and a facade entry. -/
def argsFrame : SmacArgs :=
  { argsScenarioOnly with
    scenario := some [("output_directory", SVal.s "tmp/run1")],
    smac_facade := some 5 }

/-- Claim C9, counterexample: construction does not leave the tree with
only the output-directory rewrite — `smac_args.pop("scenario")` at line
79 removes the `scenario` key from the caller's mapping, so the returned
tree has no `scenario` key although the input tree had one. -/
theorem make_smac_removes_scenario_key :
    (make_smac extDefault 0 argsFrame).map (fun r => r.1.scenario) = .ok none ∧
    argsFrame.scenario = some [("output_directory", SVal.s "tmp/run1")] :=
  ⟨rfl, rfl⟩

/-- Inversion for `acqStepOf`: the mapping state it returns equals its
input mapping except possibly for the in-place append of the factory's
hook to a list-valued `callbacks` entry (the line-97 mutation through
the line-87 alias). -/
theorem acqStepOf_state (cs : ConfigSpace) (args₁ args₂ : SmacArgs)
    (callbacks₀ : Option (List Callback)) (m : Option MaximizerObj)
    (cbs : Option (List Callback))
    (h : acqStepOf cs args₁ callbacks₀ = .ok (args₂, m, cbs)) :
    args₂.scenario = args₁.scenario ∧
    (args₂.callbacks = args₁.callbacks ∨
      ∃ l : List Callback, ∃ mf : MaximizerFactory, ∃ sel : SelectorAttr,
        ∃ cb : Callback,
        args₁.callbacks = some (.clist l) ∧
        args₁.acquisition_maximizer = some mf ∧
        mf.selector = some sel ∧ sel.expl2callback = some cb ∧
        args₂.callbacks = some (.clist (l ++ [cb]))) ∧
    args₂.acquisition_function = args₁.acquisition_function ∧
    args₂.acquisition_maximizer = args₁.acquisition_maximizer ∧
    args₂.config_selector = args₁.config_selector ∧
    args₂.initial_design = args₁.initial_design ∧
    args₂.intensifier = args₁.intensifier ∧
    args₂.random_design = args₁.random_design ∧
    args₂.smac_facade = args₁.smac_facade := by
  unfold acqStepOf at h
  cases haf : args₁.acquisition_function with
  | none =>
      simp only [haf, Except.ok.injEq, Prod.mk.injEq] at h
      obtain ⟨h₁, -⟩ := h
      subst h₁
      simp_all
  | some af =>
    cases ham : args₁.acquisition_maximizer with
    | none =>
        simp only [haf, ham, Except.ok.injEq, Prod.mk.injEq] at h
        obtain ⟨h₁, -⟩ := h
        subst h₁
        simp_all
    | some mf =>
      cases hsel : mf.selector with
      | none =>
          simp only [haf, ham, hsel, Except.ok.injEq, Prod.mk.injEq] at h
          obtain ⟨h₁, -⟩ := h
          subst h₁
          simp_all
      | some sel =>
        cases hexpl : sel.expl2callback with
        | none =>
            simp only [haf, ham, hsel, hexpl, Except.ok.injEq, Prod.mk.injEq] at h
            obtain ⟨h₁, -⟩ := h
            subst h₁
            simp_all
        | some cb =>
          cases hcb0 : callbacks₀ with
          | none => simp [haf, ham, hsel, hexpl, hcb0] at h
          | some cbs₀ =>
            cases hcb : args₁.callbacks with
            | none =>
                simp only [haf, ham, hsel, hexpl, hcb0, hcb,
                  Except.ok.injEq, Prod.mk.injEq] at h
                obtain ⟨h₁, -⟩ := h
                subst h₁
                simp_all
            | some cv =>
              cases cv with
              | cdict kvs =>
                  simp only [haf, ham, hsel, hexpl, hcb0, hcb,
                    Except.ok.injEq, Prod.mk.injEq] at h
                  obtain ⟨h₁, -⟩ := h
                  subst h₁
                  simp_all
              | cother k =>
                  simp only [haf, ham, hsel, hexpl, hcb0, hcb,
                    Except.ok.injEq, Prod.mk.injEq] at h
                  obtain ⟨h₁, -⟩ := h
                  subst h₁
                  simp_all
              | clist l =>
                  simp only [haf, ham, hsel, hexpl, hcb0, hcb,
                    Except.ok.injEq, Prod.mk.injEq] at h
                  obtain ⟨h₁, -⟩ := h
                  subst h₁
                  refine ⟨rfl,
                    Or.inr ⟨l, mf, sel, cb, rfl, rfl, hsel, hexpl, rfl⟩,
                    rfl, rfl, rfl, rfl, rfl, rfl, rfl⟩

/-- Inversion for `smacKwargsOf`: the mapping state it returns is the
one produced by the acquisition step on the resolved callbacks. -/
theorem smacKwargsOf_state (ext : Externals) (cs : ConfigSpace)
    (args₁ args₂ : SmacArgs) (scenario : Scenario) (kwargs : SmacKwargs)
    (h : smacKwargsOf ext cs args₁ scenario = .ok (args₂, kwargs)) :
    ∃ m : Option MaximizerObj, ∃ cbs : Option (List Callback),
      acqStepOf cs args₁ (resolveCallbacks args₁.callbacks) =
        .ok (args₂, m, cbs) := by
  unfold smacKwargsOf at h
  cases hstep : acqStepOf cs args₁ (resolveCallbacks args₁.callbacks) with
  | error e => simp [hstep] at h
  | ok trip =>
      obtain ⟨a₂, m, cbs⟩ := trip
      simp only [hstep, Except.ok.injEq, Prod.mk.injEq] at h
      obtain ⟨h₁, -⟩ := h
      subst h₁
      exact ⟨m, cbs, rfl⟩

/-- Claim C9, amended: construction changes the caller's tree in at most
three ways: the in-place rewrite of the scenario sub-tree's
output-directory value from a string to a filesystem path (consumed into
the constructed Scenario and observable only through it and through
pre-existing aliases of the sub-tree), the removal (pop) of the
`scenario` key, and — when the `callbacks` value is an ordered sequence,
aliased verbatim into the engine kwargs at line 87, and the
acquisition-maximizer self-registration fires — the in-place append of
the factory's `selector.expl2callback` hook to that sequence at line 97;
every other key is neither added, removed nor changed. -/
theorem make_smac_pops_scenario_only (ext : Externals) (cs : ConfigSpace)
    (args t : SmacArgs) (a : AdapterObj)
    (h : make_smac ext cs args = .ok (t, a)) :
    t.scenario = none ∧
    (t.callbacks = args.callbacks ∨
      ∃ l : List Callback, ∃ mf : MaximizerFactory, ∃ sel : SelectorAttr,
        ∃ cb : Callback,
        args.callbacks = some (.clist l) ∧
        args.acquisition_maximizer = some mf ∧
        mf.selector = some sel ∧ sel.expl2callback = some cb ∧
        t.callbacks = some (.clist (l ++ [cb]))) ∧
    t.acquisition_function = args.acquisition_function ∧
    t.acquisition_maximizer = args.acquisition_maximizer ∧
    t.config_selector = args.config_selector ∧
    t.initial_design = args.initial_design ∧
    t.intensifier = args.intensifier ∧
    t.random_design = args.random_design ∧
    t.smac_facade = args.smac_facade ∧
    ∃ scen scen' : List (String × SVal), args.scenario = some scen ∧
      normalizeOutputDir scen = .ok scen' ∧
      a.smac.scenario = { configspace := cs, args := scen' } := by
  unfold make_smac at h
  cases hscen : args.scenario with
  | none => simp [hscen] at h
  | some scen =>
    cases hn : normalizeOutputDir scen with
    | error e => simp [hscen, hn] at h
    | ok scen' =>
      simp only [hscen, hn] at h
      cases hk : smacKwargsOf ext cs { args with scenario := none }
          { configspace := cs, args := scen' } with
      | error e => simp [hk] at h
      | ok p =>
        obtain ⟨args₂, kwargs⟩ := p
        simp only [hk] at h
        cases hfac : args₂.smac_facade with
        | none => simp [hfac] at h
        | some fid =>
          simp only [hfac, Except.ok.injEq, Prod.mk.injEq] at h
          obtain ⟨ht, ha⟩ := h
          obtain ⟨m, cbs, hstep⟩ :=
            smacKwargsOf_state ext cs { args with scenario := none } args₂
              { configspace := cs, args := scen' } kwargs hk
          obtain ⟨f₁, f₂, f₃, f₄, f₅, f₆, f₇, f₈, f₉⟩ :=
            acqStepOf_state cs { args with scenario := none } args₂
              (resolveCallbacks ({ args with scenario := none } : SmacArgs).callbacks)
              m cbs hstep
          subst ht
          exact ⟨f₁, f₂, f₃, f₄, f₅, f₆, f₇, f₈, f₉,
                 scen, scen', rfl, hn, by rw [← ha]⟩

/-- A configuration mapping whose `callbacks` value is an ordered
sequence and whose acquisition factory exposes the self-registration
hook, so the line-97 append mutates the caller's list in place. -/
def argsListHook : SmacArgs :=
  { scenario := some [("output_directory", SVal.s "tmp/run1")],
    callbacks := some (.clist [40]),
    acquisition_function := some 4,
    acquisition_maximizer := some mfFactoryHook,
    config_selector := none, initial_design := none, intensifier := none,
    random_design := none, smac_facade := some 9 }

/-- Claim C9, witness for the amended theorem at a concrete input that
exercises all three mutations: the output-directory rewrite (visible in
the engine's scenario), the pop of the `scenario` key, and the in-place
append of the factory hook 21 to the caller's callback sequence `[40]`. -/
theorem make_smac_pops_scenario_only_witness :
    make_smac extDefault 0 argsListHook =
      .ok ({ scenario := none, callbacks := some (.clist [40, 21]),
             acquisition_function := some 4,
             acquisition_maximizer := some mfFactoryHook,
             config_selector := none, initial_design := none,
             intensifier := none, random_design := none,
             smac_facade := some 9 },
           { smac := { facadeId := 9,
                       scenario := { configspace := 0,
                                     args := [("output_directory", SVal.p "tmp/run1")] },
                       kwargs := { callbacks := some [40, 21],
                                   acquisition_maximizer := some
                                     { factoryId := 12, configspace := 0,
                                       acquisition_function := 4,
                                       selector := none },
                                   config_selector := none,
                                   initial_design := none,
                                   intensifier := none,
                                   random_design := none } } }) ∧
    (({ scenario := none, callbacks := some (.clist [40, 21]),
        acquisition_function := some 4,
        acquisition_maximizer := some mfFactoryHook,
        config_selector := none, initial_design := none,
        intensifier := none, random_design := none,
        smac_facade := some 9 } : SmacArgs).scenario = none ∧
     (({ scenario := none, callbacks := some (.clist [40, 21]),
         acquisition_function := some 4,
         acquisition_maximizer := some mfFactoryHook,
         config_selector := none, initial_design := none,
         intensifier := none, random_design := none,
         smac_facade := some 9 } : SmacArgs).callbacks = argsListHook.callbacks ∨
       ∃ l : List Callback, ∃ mf : MaximizerFactory, ∃ sel : SelectorAttr,
         ∃ cb : Callback,
         argsListHook.callbacks = some (.clist l) ∧
         argsListHook.acquisition_maximizer = some mf ∧
         mf.selector = some sel ∧ sel.expl2callback = some cb ∧
         ({ scenario := none, callbacks := some (.clist [40, 21]),
            acquisition_function := some 4,
            acquisition_maximizer := some mfFactoryHook,
            config_selector := none, initial_design := none,
            intensifier := none, random_design := none,
            smac_facade := some 9 } : SmacArgs).callbacks =
           some (.clist (l ++ [cb]))) ∧
     (({ scenario := none, callbacks := some (.clist [40, 21]),
         acquisition_function := some 4,
         acquisition_maximizer := some mfFactoryHook,
         config_selector := none, initial_design := none,
         intensifier := none, random_design := none,
         smac_facade := some 9 } : SmacArgs).acquisition_function =
        argsListHook.acquisition_function) ∧
     (({ scenario := none, callbacks := some (.clist [40, 21]),
         acquisition_function := some 4,
         acquisition_maximizer := some mfFactoryHook,
         config_selector := none, initial_design := none,
         intensifier := none, random_design := none,
         smac_facade := some 9 } : SmacArgs).acquisition_maximizer =
        argsListHook.acquisition_maximizer) ∧
     (({ scenario := none, callbacks := some (.clist [40, 21]),
         acquisition_function := some 4,
         acquisition_maximizer := some mfFactoryHook,
         config_selector := none, initial_design := none,
         intensifier := none, random_design := none,
         smac_facade := some 9 } : SmacArgs).config_selector =
        argsListHook.config_selector) ∧
     (({ scenario := none, callbacks := some (.clist [40, 21]),
         acquisition_function := some 4,
         acquisition_maximizer := some mfFactoryHook,
         config_selector := none, initial_design := none,
         intensifier := none, random_design := none,
         smac_facade := some 9 } : SmacArgs).initial_design =
        argsListHook.initial_design) ∧
     (({ scenario := none, callbacks := some (.clist [40, 21]),
         acquisition_function := some 4,
         acquisition_maximizer := some mfFactoryHook,
         config_selector := none, initial_design := none,
         intensifier := none, random_design := none,
         smac_facade := some 9 } : SmacArgs).intensifier =
        argsListHook.intensifier) ∧
     (({ scenario := none, callbacks := some (.clist [40, 21]),
         acquisition_function := some 4,
         acquisition_maximizer := some mfFactoryHook,
         config_selector := none, initial_design := none,
         intensifier := none, random_design := none,
         smac_facade := some 9 } : SmacArgs).random_design =
        argsListHook.random_design) ∧
     (({ scenario := none, callbacks := some (.clist [40, 21]),
         acquisition_function := some 4,
         acquisition_maximizer := some mfFactoryHook,
         config_selector := none, initial_design := none,
         intensifier := none, random_design := none,
         smac_facade := some 9 } : SmacArgs).smac_facade =
        argsListHook.smac_facade) ∧
     ∃ scen scen' : List (String × SVal), argsListHook.scenario = some scen ∧
       normalizeOutputDir scen = .ok scen' ∧
       (AdapterObj.mk
         { facadeId := 9,
           scenario := { configspace := 0,
                         args := [("output_directory", SVal.p "tmp/run1")] },
           kwargs := { callbacks := some [40, 21],
                       acquisition_maximizer := some
                         { factoryId := 12, configspace := 0,
                           acquisition_function := 4, selector := none },
                       config_selector := none, initial_design := none,
                       intensifier := none,
                       random_design := none } }).smac.scenario =
         { configspace := 0, args := scen' }) :=
  ⟨rfl, make_smac_pops_scenario_only extDefault 0 argsListHook _ _ rfl⟩
